import Mathlib

/-!
# CG/lab2/p2.c : a fixed GLUT scene (axes and four quadrant "petals")

The program is a chain of `void f(void)` routines that only talk to the
OpenGL/GLUT libraries.  Each routine is embedded as a state transformer on
`GLState`; every library call appends one `Event` to `GLState.trace` and
updates the part of the graphics state it governs.  Floating point literals
are read as the exact decimal numbers they denote (`ℚ`).
-/

namespace P2

/-! ## Data model -/

/-- A vertex / a point of the frame, in normalized device coordinates. -/
abbrev Vertex := ℚ × ℚ

/-- A colour with alpha: red, green, blue, alpha. -/
abbrev RGBA := ℚ × ℚ × ℚ × ℚ

/-- The primitive modes `glBegin` is given in this program. -/
inductive PrimMode where
  | GL_LINES
  | GL_LINE_STRIP
  deriving DecidableEq, Repr

/-- Buffer selectors of `glClear`. -/
inductive ClearMask where
  | GL_COLOR_BUFFER_BIT
  | GL_DEPTH_BUFFER_BIT
  deriving DecidableEq, Repr

/-- The `void f(void)` routines of the file, as they are handed to
`glutDisplayFunc` (a function pointer is modelled by the routine's name). -/
inductive Callback where
  | display
  | display1
  | display2
  | display3
  | display4
  | init
  deriving DecidableEq, Repr

/-- One library call, with its arguments. -/
inductive Event where
  | glColor3f (r g b : ℚ)
  | glLineWidth (w : ℚ)
  | glBegin (mode : PrimMode)
  | glVertex2f (x y : ℚ)
  | glEnd
  | glFlush
  | glClearColor (r g b a : ℚ)
  | glClear (mask : ClearMask)
  | glutInit (argv : List String)
  | glutInitWindowSize (w h : Int)
  | glutInitWindowPosition (x y : Int)
  | glutCreateWindow (title : String)
  | glutDisplayFunc (f : Callback)
  | glutMainLoop
  deriving DecidableEq, Repr

/-- The graphics and windowing state the library calls act on.

* `frame` maps every point to the colour last written there;
* `covers w a b p` is the rasterisation rule of the context: whether a line
  of width `w` from `a` to `b` writes the point `p` (no call changes it);
* `mode`/`pending` hold the primitive being assembled between `glBegin` and
  `glEnd`;
* `trace` is the log of all calls issued so far. -/
structure GLState where
  clearColor : RGBA
  color : RGBA
  lineWidth : ℚ
  mode : Option PrimMode
  pending : Option Vertex
  frame : Vertex → RGBA
  covers : ℚ → Vertex → Vertex → Vertex → Bool
  windowSize : Int × Int
  windowPos : Int × Int
  window : Option String
  displayFunc : Option Callback
  trace : List Event

/-! ## The library calls -/

/-- Append a call to the log. -/
def emit (e : Event) (s : GLState) : GLState :=
  { s with trace := s.trace ++ [e] }

/-- Library call `glColor3f`: set the current colour (alpha becomes 1). -/
def glColor3f (r g b : ℚ) (s : GLState) : GLState :=
  { emit (Event.glColor3f r g b) s with color := (r, g, b, 1) }

/-- Library call `glLineWidth`: set the current line width. -/
def glLineWidth (w : ℚ) (s : GLState) : GLState :=
  { emit (Event.glLineWidth w) s with lineWidth := w }

/-- Library call `glBegin`: start assembling a primitive. -/
def glBegin (m : PrimMode) (s : GLState) : GLState :=
  { emit (Event.glBegin m) s with mode := some m, pending := none }

/-- Write the line from `a` to `b` into the frame with the current colour and
width: the covered points take the current colour, all others keep theirs. -/
def drawLine (a b : Vertex) (s : GLState) : GLState :=
  { s with frame := fun p => if s.covers s.lineWidth a b p then s.color else s.frame p }

/-- Library call `glVertex2f`: in `GL_LINES` mode every second vertex closes an independent
segment; in `GL_LINE_STRIP` mode every vertex after the first closes a segment
from its predecessor.  Outside `glBegin`/`glEnd` nothing is drawn. -/
def glVertex2f (x y : ℚ) (s : GLState) : GLState :=
  let s1 := emit (Event.glVertex2f x y) s
  match s1.mode, s1.pending with
  | some PrimMode.GL_LINES, none => { s1 with pending := some (x, y) }
  | some PrimMode.GL_LINES, some a => { drawLine a (x, y) s1 with pending := none }
  | some PrimMode.GL_LINE_STRIP, none => { s1 with pending := some (x, y) }
  | some PrimMode.GL_LINE_STRIP, some a => { drawLine a (x, y) s1 with pending := some (x, y) }
  | none, _ => s1

/-- Library call `glEnd`: finish the primitive. -/
def glEnd (s : GLState) : GLState :=
  { emit Event.glEnd s with mode := none, pending := none }

/-- Library call `glFlush`: submit what was issued; no state of the model changes. -/
def glFlush (s : GLState) : GLState :=
  emit Event.glFlush s

/-- Clamp a component to `[0,1]`, as `glClearColor` does with its arguments. -/
def clamp01 (x : ℚ) : ℚ := max 0 (min 1 x)

/-- Library call `glClearColor`: set the clear colour. -/
def glClearColor (r g b a : ℚ) (s : GLState) : GLState :=
  { emit (Event.glClearColor r g b a) s with
    clearColor := (clamp01 r, clamp01 g, clamp01 b, clamp01 a) }

/-- Library call `glClear`: with `GL_COLOR_BUFFER_BIT`, every point of the frame takes the
clear colour; other buffers are not part of the model. -/
def glClear (mask : ClearMask) (s : GLState) : GLState :=
  let s1 := emit (Event.glClear mask) s
  match mask with
  | ClearMask.GL_COLOR_BUFFER_BIT => { s1 with frame := fun _ => s1.clearColor }
  | ClearMask.GL_DEPTH_BUFFER_BIT => s1

/-- Library call `glutInit`: hand the argument vector to the windowing library. -/
def glutInit (argv : List String) (s : GLState) : GLState :=
  emit (Event.glutInit argv) s

/-- Library call `glutInitWindowSize`: size requested for windows created later. -/
def glutInitWindowSize (w h : Int) (s : GLState) : GLState :=
  { emit (Event.glutInitWindowSize w h) s with windowSize := (w, h) }

/-- Library call `glutInitWindowPosition`: position requested for windows created later. -/
def glutInitWindowPosition (x y : Int) (s : GLState) : GLState :=
  { emit (Event.glutInitWindowPosition x y) s with windowPos := (x, y) }

/-- Library call `glutCreateWindow`: create the window with the given title. -/
def glutCreateWindow (title : String) (s : GLState) : GLState :=
  { emit (Event.glutCreateWindow title) s with window := some title }

/-- Library call `glutDisplayFunc`: register the display callback. -/
def glutDisplayFunc (f : Callback) (s : GLState) : GLState :=
  { emit (Event.glutDisplayFunc f) s with displayFunc := some f }

/-! ## The program (src/CG/lab2/p2.c) -/

/-- Source routine `void display4()`, lines 124-155. -/
def display4 (s : GLState) : GLState :=
  s |> glColor3f 0.0 1.0 1.0
    |> glLineWidth 2
    |> glBegin PrimMode.GL_LINE_STRIP
    |> glVertex2f 0 0
    |> glVertex2f (-0.9) (-0.5)
    |> glVertex2f 0 (-1)
    |> glEnd
    |> glBegin PrimMode.GL_LINE_STRIP
    |> glVertex2f 0 (-0.2)
    |> glVertex2f (-0.6) (-0.5)
    |> glVertex2f 0 (-0.8)
    |> glEnd
    |> glBegin PrimMode.GL_LINE_STRIP
    |> glVertex2f 0 (-0.4)
    |> glVertex2f (-0.3) (-0.5)
    |> glVertex2f 0 (-0.6)
    |> glEnd
    |> glFlush

/-- Source routine `void display3()`, lines 91-122. -/
def display3 (s : GLState) : GLState :=
  s |> glColor3f 0.0 0.0 1.0
    |> glLineWidth 2
    |> glBegin PrimMode.GL_LINE_STRIP
    |> glVertex2f 0 0
    |> glVertex2f 0.9 0.5
    |> glVertex2f 0 1
    |> glEnd
    |> glBegin PrimMode.GL_LINE_STRIP
    |> glVertex2f 0 0.2
    |> glVertex2f 0.6 0.5
    |> glVertex2f 0 0.8
    |> glEnd
    |> glBegin PrimMode.GL_LINE_STRIP
    |> glVertex2f 0 0.4
    |> glVertex2f 0.3 0.5
    |> glVertex2f 0 0.6
    |> glEnd
    |> glFlush
    |> display4

/-- Source routine `void display2()`, lines 58-89. -/
def display2 (s : GLState) : GLState :=
  s |> glColor3f 1.0 0.0 0.0
    |> glLineWidth 2
    |> glBegin PrimMode.GL_LINE_STRIP
    |> glVertex2f 0 0
    |> glVertex2f (-0.5) 0.9
    |> glVertex2f (-1) 0
    |> glEnd
    |> glBegin PrimMode.GL_LINE_STRIP
    |> glVertex2f (-0.2) 0
    |> glVertex2f (-0.5) 0.6
    |> glVertex2f (-0.8) 0
    |> glEnd
    |> glBegin PrimMode.GL_LINE_STRIP
    |> glVertex2f (-0.4) 0
    |> glVertex2f (-0.5) 0.3
    |> glVertex2f (-0.6) 0
    |> glEnd
    |> glFlush
    |> display3

/-- Source routine `void display1()`, lines 25-56. -/
def display1 (s : GLState) : GLState :=
  s |> glColor3f 0.0 1.0 0.0
    |> glLineWidth 2
    |> glBegin PrimMode.GL_LINE_STRIP
    |> glVertex2f 0 0
    |> glVertex2f 0.5 (-0.9)
    |> glVertex2f 1 0
    |> glEnd
    |> glBegin PrimMode.GL_LINE_STRIP
    |> glVertex2f 0.2 0
    |> glVertex2f 0.5 (-0.6)
    |> glVertex2f 0.8 0
    |> glEnd
    |> glBegin PrimMode.GL_LINE_STRIP
    |> glVertex2f 0.4 0
    |> glVertex2f 0.5 (-0.3)
    |> glVertex2f 0.6 0
    |> glEnd
    |> glFlush
    |> display2

/-- Source routine `void display()`, lines 6-22. -/
def display (s : GLState) : GLState :=
  s |> glColor3f 1.0 1.0 1.0
    |> glLineWidth 2
    |> glBegin PrimMode.GL_LINES
    |> glVertex2f (-1) 0
    |> glVertex2f 1 0
    |> glVertex2f 0 (-1)
    |> glVertex2f 0 1
    |> glEnd
    |> glFlush
    |> display1

/-- Source routine `void init()`, lines 173-177. -/
def init (s : GLState) : GLState :=
  s |> glClearColor 0 0 0 0
    |> glClear ClearMask.GL_COLOR_BUFFER_BIT
    |> glFlush

/-- Call the routine a function pointer stands for. -/
def invoke : Callback → GLState → GLState
  | Callback.display => display
  | Callback.display1 => display1
  | Callback.display2 => display2
  | Callback.display3 => display3
  | Callback.display4 => display4
  | Callback.init => init

/-- Library call `glutMainLoop`: enter the event loop.  The windowing system is the
environment: `redraws` is the number of redraw requests it delivers, each
dispatched to the registered display callback (none registered: nothing is
dispatched). -/
def glutMainLoop (redraws : Nat) (s : GLState) : GLState :=
  let s1 := emit Event.glutMainLoop s
  match s1.displayFunc with
  | none => s1
  | some f => (invoke f)^[redraws] s1

/-- Source routine `int main(int argc, char *argv[])`, lines 156-170.  The environment
supplies the number of redraw requests and whether `glutMainLoop` ever
returns; the exit code is `none` when it does not. -/
def main (argv : List String) (redraws : Nat) (loopReturns : Bool) (s : GLState) :
    GLState × Option Int :=
  let s1 := s |> glutInit argv
    |> glutInitWindowSize 500 500
    |> glutInitWindowPosition 70 70
    |> glutCreateWindow "Basic Window"
    |> init
    |> glutDisplayFunc Callback.display
    |> glutMainLoop redraws
  (s1, if loopReturns then some 0 else none)

/-- Ideal rasterisation: is `p` a point of the segment from `a` to `b`
(collinear with the end points and inside their bounding box)? -/
def onSegment (a b p : Vertex) : Bool :=
  decide ((b.1 - a.1) * (p.2 - a.2) - (b.2 - a.2) * (p.1 - a.1) = 0 ∧
    min a.1 b.1 ≤ p.1 ∧ p.1 ≤ max a.1 b.1 ∧ min a.2 b.2 ≤ p.2 ∧ p.2 ≤ max a.2 b.2)

/-- The state of a fresh process: nothing logged, no window (GLUT's default
size 300 by 300, position unset), GL defaults (black transparent clear colour
and frame, white current colour, line width 1), and the ideal rasterisation
rule: a line writes exactly the points of its segment. -/
def GLState.initial : GLState where
  clearColor := (0, 0, 0, 0)
  color := (1, 1, 1, 1)
  lineWidth := 1
  mode := none
  pending := none
  frame := fun _ => (0, 0, 0, 0)
  covers := fun _ a b p => onSegment a b p
  windowSize := (300, 300)
  windowPos := (-1, -1)
  window := none
  displayFunc := none
  trace := []

/-! ## Observations on traces -/

/-- The calls a routine appends to the log when run from state `s`. -/
def emitted (f : GLState → GLState) (s : GLState) : List Event :=
  (f s).trace.drop s.trace.length

/-- Is the call a `glFlush`? -/
def isFlush : Event → Bool
  | Event.glFlush => true
  | _ => false

/-- Is the call a clear of the colour buffer? -/
def isClear : Event → Bool
  | Event.glClear ClearMask.GL_COLOR_BUFFER_BIT => true
  | _ => false

/-- Is the call a `glClearColor`? -/
def isClearColor : Event → Bool
  | Event.glClearColor _ _ _ _ => true
  | _ => false

/-- Is the call a `glBegin`? -/
def isBegin : Event → Bool
  | Event.glBegin _ => true
  | _ => false

/-- Is the call a `glEnd`? -/
def isEnd : Event → Bool
  | Event.glEnd => true
  | _ => false

/-- Is the call part of a line-drawing command (a `glBegin` or a vertex)? -/
def isDraw : Event → Bool
  | Event.glBegin _ => true
  | Event.glVertex2f _ _ => true
  | _ => false

/-- The colour a colour-set call selects. -/
def colourOf : Event → Option (ℚ × ℚ × ℚ)
  | Event.glColor3f r g b => some (r, g, b)
  | _ => none

/-- The vertex a vertex call supplies. -/
def vertexOf : Event → Option Vertex
  | Event.glVertex2f x y => some (x, y)
  | _ => none

/-- Cut a trace after every flush; `cur` is the stage being collected. -/
def stagesFrom (cur : List Event) : List Event → List (List Event)
  | [] => if cur.isEmpty then [] else [cur]
  | e :: t => if isFlush e then (cur ++ [e]) :: stagesFrom [] t else stagesFrom (cur ++ [e]) t

/-- The stages of a trace: maximal runs of calls, each closed by its flush
(a last run without flush is kept as it is). -/
def stages (t : List Event) : List (List Event) :=
  stagesFrom [] t

/-- The first stage of a trace: the calls up to and including the first
flush.  For a routine that ends by calling the next one, these are the calls
of its own body. -/
def ownStage (t : List Event) : List Event :=
  (stages t).headD []

/-- The `glBegin` .. `glEnd` groups of a trace with their vertices; `cur` is
the group being collected. -/
def primitivesFrom (cur : Option (PrimMode × List Vertex)) :
    List Event → List (PrimMode × List Vertex)
  | [] => []
  | Event.glBegin m :: t => primitivesFrom (some (m, [])) t
  | Event.glVertex2f x y :: t =>
    match cur with
    | some (m, vs) => primitivesFrom (some (m, vs ++ [(x, y)])) t
    | none => primitivesFrom none t
  | Event.glEnd :: t =>
    match cur with
    | some g => g :: primitivesFrom none t
    | none => primitivesFrom none t
  | _ :: t => primitivesFrom cur t

/-- The primitives of a trace: mode and vertex list of every completed
`glBegin` .. `glEnd` group, in order. -/
def primitives (t : List Event) : List (PrimMode × List Vertex) :=
  primitivesFrom none t

/-- The vertex lists of the line strips of a trace, in order. -/
def strips (t : List Event) : List (List Vertex) :=
  (primitives t).filterMap
    (fun g => match g.1 with
      | PrimMode.GL_LINE_STRIP => some g.2
      | PrimMode.GL_LINES => none)

/-- The line segments a vertex list stands for in a given mode (the segments
`glVertex2f` draws): disjoint pairs for `GL_LINES`, consecutive pairs for
`GL_LINE_STRIP`. -/
def segmentsOf : PrimMode → List Vertex → List (Vertex × Vertex)
  | PrimMode.GL_LINES, a :: b :: rest => (a, b) :: segmentsOf PrimMode.GL_LINES rest
  | PrimMode.GL_LINE_STRIP, a :: b :: rest => (a, b) :: segmentsOf PrimMode.GL_LINE_STRIP (b :: rest)
  | _, _ => []

/-- Does a clear of the colour buffer occur before the first line-drawing
call of the trace? -/
def clearsBeforeDrawing (t : List Event) : Bool :=
  (t.takeWhile (fun e => !isDraw e)).any isClear

/-! ## Geometry of the vertex lists -/

/-- A vertex as a point of the real plane. -/
def toReal (v : Vertex) : ℝ × ℝ := ((v.1 : ℝ), (v.2 : ℝ))

/-- The point set of the polyline through the vertices of a strip. -/
def polyline (vs : List Vertex) : Set (ℝ × ℝ) :=
  {p | ∃ ab ∈ segmentsOf PrimMode.GL_LINE_STRIP vs, p ∈ segment ℝ (toReal ab.1) (toReal ab.2)}

/-- The closed region spanned by the vertices of a strip: their convex hull
(for three vertices, the closed triangle). -/
def spanned (vs : List Vertex) : Set (ℝ × ℝ) :=
  convexHull ℝ (Set.image toReal {v | v ∈ vs})

/-- Executable test for membership of `p` in the closed triangle `a b c`
(non-degenerate): all three barycentric coordinates are non-negative. -/
def inTriangle (a b c p : Vertex) : Bool :=
  let cr := fun (o u v : Vertex) => (u.1 - o.1) * (v.2 - o.2) - (u.2 - o.2) * (v.1 - o.1)
  decide (cr a b c ≠ 0 ∧ 0 ≤ cr p b c / cr a b c ∧ 0 ≤ cr a p c / cr a b c ∧
    0 ≤ cr a b p / cr a b c)

/-- Executable test: do `c` and `d` lie strictly on the same side of the line
through `a` and `b`? -/
def sameSide (a b c d : Vertex) : Bool :=
  decide (0 < ((b.1 - a.1) * (c.2 - a.2) - (b.2 - a.2) * (c.1 - a.1)) *
    ((b.1 - a.1) * (d.2 - a.2) - (b.2 - a.2) * (d.1 - a.1)))

/-- Rotation by a quarter turn about the origin. -/
def rot90 (v : Vertex) : Vertex := (-v.2, v.1)

/-- Rotation by a half turn about the origin. -/
def rot180 (v : Vertex) : Vertex := (-v.1, -v.2)

/-- Rotation by three quarter turns about the origin. -/
def rot270 (v : Vertex) : Vertex := (v.2, -v.1)

/-! ## Frames as overwritten maps -/

/-- One drawn line: width, end points, colour. -/
structure Stroke where
  width : ℚ
  a : Vertex
  b : Vertex
  colour : RGBA

/-- Write one stroke over a frame under the rasterisation rule `cov`. -/
def paint (cov : ℚ → Vertex → Vertex → Vertex → Bool) (f : Vertex → RGBA) (k : Stroke) :
    Vertex → RGBA :=
  fun p => if cov k.width k.a k.b p then k.colour else f p

/-- Write strokes over a frame, in order. -/
def paintAll (cov : ℚ → Vertex → Vertex → Vertex → Bool) (ks : List Stroke)
    (f : Vertex → RGBA) : Vertex → RGBA :=
  ks.foldl (paint cov) f

/-- The strokes of one primitive drawn in colour `c` with width `w`. -/
def strokesOf (w : ℚ) (c : RGBA) (m : PrimMode) (vs : List Vertex) : List Stroke :=
  (segmentsOf m vs).map (fun ab => Stroke.mk w ab.1 ab.2 c)

/-! ## The calls of each routine, written out

The lists below are what the routines are expected to log; the theorems
`display_trace` .. `display4_trace` and `init_trace` prove that they do. -/

/-- The calls of the body of `display` (the axes), in program order. -/
def axesCalls : List Event :=
  [Event.glColor3f 1.0 1.0 1.0, Event.glLineWidth 2,
   Event.glBegin PrimMode.GL_LINES,
   Event.glVertex2f (-1) 0, Event.glVertex2f 1 0, Event.glVertex2f 0 (-1), Event.glVertex2f 0 1,
   Event.glEnd, Event.glFlush]

/-- The calls of the body of `display1`, in program order. -/
def greenCalls : List Event :=
  [Event.glColor3f 0.0 1.0 0.0, Event.glLineWidth 2,
   Event.glBegin PrimMode.GL_LINE_STRIP,
   Event.glVertex2f 0 0, Event.glVertex2f 0.5 (-0.9), Event.glVertex2f 1 0, Event.glEnd,
   Event.glBegin PrimMode.GL_LINE_STRIP,
   Event.glVertex2f 0.2 0, Event.glVertex2f 0.5 (-0.6), Event.glVertex2f 0.8 0, Event.glEnd,
   Event.glBegin PrimMode.GL_LINE_STRIP,
   Event.glVertex2f 0.4 0, Event.glVertex2f 0.5 (-0.3), Event.glVertex2f 0.6 0, Event.glEnd,
   Event.glFlush]

/-- The calls of the body of `display2`, in program order. -/
def redCalls : List Event :=
  [Event.glColor3f 1.0 0.0 0.0, Event.glLineWidth 2,
   Event.glBegin PrimMode.GL_LINE_STRIP,
   Event.glVertex2f 0 0, Event.glVertex2f (-0.5) 0.9, Event.glVertex2f (-1) 0, Event.glEnd,
   Event.glBegin PrimMode.GL_LINE_STRIP,
   Event.glVertex2f (-0.2) 0, Event.glVertex2f (-0.5) 0.6, Event.glVertex2f (-0.8) 0, Event.glEnd,
   Event.glBegin PrimMode.GL_LINE_STRIP,
   Event.glVertex2f (-0.4) 0, Event.glVertex2f (-0.5) 0.3, Event.glVertex2f (-0.6) 0, Event.glEnd,
   Event.glFlush]

/-- The calls of the body of `display3`, in program order. -/
def blueCalls : List Event :=
  [Event.glColor3f 0.0 0.0 1.0, Event.glLineWidth 2,
   Event.glBegin PrimMode.GL_LINE_STRIP,
   Event.glVertex2f 0 0, Event.glVertex2f 0.9 0.5, Event.glVertex2f 0 1, Event.glEnd,
   Event.glBegin PrimMode.GL_LINE_STRIP,
   Event.glVertex2f 0 0.2, Event.glVertex2f 0.6 0.5, Event.glVertex2f 0 0.8, Event.glEnd,
   Event.glBegin PrimMode.GL_LINE_STRIP,
   Event.glVertex2f 0 0.4, Event.glVertex2f 0.3 0.5, Event.glVertex2f 0 0.6, Event.glEnd,
   Event.glFlush]

/-- The calls of `display4`, in program order. -/
def cyanCalls : List Event :=
  [Event.glColor3f 0.0 1.0 1.0, Event.glLineWidth 2,
   Event.glBegin PrimMode.GL_LINE_STRIP,
   Event.glVertex2f 0 0, Event.glVertex2f (-0.9) (-0.5), Event.glVertex2f 0 (-1), Event.glEnd,
   Event.glBegin PrimMode.GL_LINE_STRIP,
   Event.glVertex2f 0 (-0.2), Event.glVertex2f (-0.6) (-0.5), Event.glVertex2f 0 (-0.8), Event.glEnd,
   Event.glBegin PrimMode.GL_LINE_STRIP,
   Event.glVertex2f 0 (-0.4), Event.glVertex2f (-0.3) (-0.5), Event.glVertex2f 0 (-0.6), Event.glEnd,
   Event.glFlush]

/-- The calls of `init`, in program order. -/
def initCalls : List Event :=
  [Event.glClearColor 0 0 0 0, Event.glClear ClearMask.GL_COLOR_BUFFER_BIT, Event.glFlush]

/-! ## Properties of stages, stated on traces -/

/-- A stage `st` is a petal stage of colour `c` inside the box
`xlo ≤ x ≤ xhi`, `ylo ≤ y ≤ yhi`: it starts by selecting `c` and selects no
other colour; it consists of exactly three `glBegin(GL_LINE_STRIP)` ..
`glEnd` groups of exactly three vertices each; all its vertices belong to
these strips, and every one of them lies in the box. -/
def PetalStage (st : List Event) (c : ℚ × ℚ × ℚ) (xlo xhi ylo yhi : ℚ) : Prop :=
  st.head? = some (Event.glColor3f c.1 c.2.1 c.2.2) ∧
  st.filterMap colourOf = [c] ∧
  (primitives st).map (fun g => (g.1, g.2.length)) =
    [(PrimMode.GL_LINE_STRIP, 3), (PrimMode.GL_LINE_STRIP, 3), (PrimMode.GL_LINE_STRIP, 3)] ∧
  st.countP isBegin = 3 ∧ st.countP isEnd = 3 ∧
  (strips st).flatten = st.filterMap vertexOf ∧
  (st.filterMap vertexOf).length = 9 ∧
  ∀ v ∈ st.filterMap vertexOf, xlo ≤ v.1 ∧ v.1 ≤ xhi ∧ ylo ≤ v.2 ∧ v.2 ≤ yhi

/-- Three strips are disjoint and nested: any two of their polylines share no
point of the plane, and every vertex of a strip lies in the closed triangle
spanned by the three vertices of the strip before it. -/
def NestedDisjoint (S : List (List Vertex)) : Prop :=
  S.length = 3 ∧
  S.Pairwise (fun A B => Disjoint (polyline A) (polyline B)) ∧
  S.Chain' (fun A B => A.length = 3 ∧ ∀ v ∈ B, toReal v ∈ spanned A)


/-! ## How the calls act on the log -/

theorem trace_emit (e : Event) (s : GLState) : (emit e s).trace = s.trace ++ [e] := rfl

theorem trace_glColor3f (r g b : ℚ) (s : GLState) :
    (glColor3f r g b s).trace = s.trace ++ [Event.glColor3f r g b] := rfl

theorem trace_glLineWidth (w : ℚ) (s : GLState) :
    (glLineWidth w s).trace = s.trace ++ [Event.glLineWidth w] := rfl

theorem trace_glBegin (m : PrimMode) (s : GLState) :
    (glBegin m s).trace = s.trace ++ [Event.glBegin m] := rfl

theorem trace_glVertex2f (x y : ℚ) (s : GLState) :
    (glVertex2f x y s).trace = s.trace ++ [Event.glVertex2f x y] := by
  obtain ⟨_, _, _, mode, pending, _, _, _, _, _, _, _⟩ := s
  rcases mode with _ | _ | _ <;> rcases pending with _ | _ <;> rfl

theorem trace_glEnd (s : GLState) : (glEnd s).trace = s.trace ++ [Event.glEnd] := rfl

theorem trace_glFlush (s : GLState) : (glFlush s).trace = s.trace ++ [Event.glFlush] := rfl

theorem trace_glClearColor (r g b a : ℚ) (s : GLState) :
    (glClearColor r g b a s).trace = s.trace ++ [Event.glClearColor r g b a] := rfl

theorem trace_glClear (m : ClearMask) (s : GLState) :
    (glClear m s).trace = s.trace ++ [Event.glClear m] := by
  cases m <;> rfl

/-- What `emitted` returns for a routine that appends `t` to the log. -/
theorem emitted_of_trace {f : GLState → GLState} {s : GLState} {t : List Event}
    (h : (f s).trace = s.trace ++ t) : emitted f s = t := by
  simp [emitted, h]

theorem display4_trace (s : GLState) : (display4 s).trace = s.trace ++ cyanCalls := by
  simp only [display4, cyanCalls, trace_glColor3f, trace_glLineWidth, trace_glBegin,
    trace_glVertex2f, trace_glEnd, trace_glFlush, List.append_assoc, List.singleton_append,
    List.cons_append, List.nil_append]

theorem display3_trace (s : GLState) :
    (display3 s).trace = s.trace ++ (blueCalls ++ cyanCalls) := by
  simp only [display3, blueCalls, display4_trace, trace_glColor3f, trace_glLineWidth,
    trace_glBegin, trace_glVertex2f, trace_glEnd, trace_glFlush, List.append_assoc,
    List.singleton_append, List.cons_append, List.nil_append]

theorem display2_trace (s : GLState) :
    (display2 s).trace = s.trace ++ (redCalls ++ (blueCalls ++ cyanCalls)) := by
  simp only [display2, redCalls, display3_trace, trace_glColor3f, trace_glLineWidth,
    trace_glBegin, trace_glVertex2f, trace_glEnd, trace_glFlush, List.append_assoc,
    List.singleton_append, List.cons_append, List.nil_append]

theorem display1_trace (s : GLState) :
    (display1 s).trace = s.trace ++ (greenCalls ++ (redCalls ++ (blueCalls ++ cyanCalls))) := by
  simp only [display1, greenCalls, display2_trace, trace_glColor3f, trace_glLineWidth,
    trace_glBegin, trace_glVertex2f, trace_glEnd, trace_glFlush, List.append_assoc,
    List.singleton_append, List.cons_append, List.nil_append]

theorem display_trace (s : GLState) :
    (display s).trace =
      s.trace ++ (axesCalls ++ (greenCalls ++ (redCalls ++ (blueCalls ++ cyanCalls)))) := by
  simp only [display, axesCalls, display1_trace, trace_glColor3f, trace_glLineWidth,
    trace_glBegin, trace_glVertex2f, trace_glEnd, trace_glFlush, List.append_assoc,
    List.singleton_append, List.cons_append, List.nil_append]

theorem init_trace (s : GLState) : (init s).trace = s.trace ++ initCalls := by
  simp only [init, initCalls, trace_glClearColor, trace_glClear, trace_glFlush,
    List.append_assoc, List.singleton_append, List.cons_append, List.nil_append]

/-- Cutting a trace into stages loses nothing. -/
theorem stagesFrom_flatten (cur t : List Event) : (stagesFrom cur t).flatten = cur ++ t := by
  induction t generalizing cur with
  | nil =>
    cases cur <;> simp [stagesFrom]
  | cons e t ih =>
    unfold stagesFrom
    split <;> simp [ih]


/-! ## Geometry lemmas -/

/-- A convex combination of three points of a convex set lies in the set. -/
theorem convex_comb3 {S : Set (ℝ × ℝ)} (hS : Convex ℝ S) {a b c : ℝ × ℝ}
    (ha : a ∈ S) (hb : b ∈ S) (hc : c ∈ S) {u v w : ℝ} (hu : 0 ≤ u) (hv : 0 ≤ v) (hw : 0 ≤ w)
    (h1 : u + v + w = 1) : u • a + v • b + w • c ∈ S := by
  have h := hS.sum_mem (t := Finset.univ) (w := ![u, v, w]) (z := ![a, b, c])
    (by intro i _; fin_cases i <;> simpa)
    (by simp [Fin.sum_univ_three, h1])
    (by intro i _; fin_cases i <;> simpa)
  simpa [Fin.sum_univ_three] using h

/-- The executable triangle test is sound for the convex hull of the three
vertices. -/
theorem mem_spanned_of_inTriangle (a b c p : Vertex) (h : inTriangle a b c p = true) :
    toReal p ∈ spanned [a, b, c] := by
  obtain ⟨a1, a2⟩ := a
  obtain ⟨b1, b2⟩ := b
  obtain ⟨c1, c2⟩ := c
  obtain ⟨p1, p2⟩ := p
  simp only [inTriangle, decide_eq_true_eq] at h
  obtain ⟨hd, hu, hv, hw⟩ := h
  obtain ⟨u, v, w, hu, hv, hw, h1, hx, hy⟩ : ∃ u v w : ℚ, 0 ≤ u ∧ 0 ≤ v ∧ 0 ≤ w ∧
      u + v + w = 1 ∧ u * a1 + v * b1 + w * c1 = p1 ∧ u * a2 + v * b2 + w * c2 = p2 :=
    ⟨_, _, _, hu, hv, hw, by field_simp; ring, by field_simp; ring, by field_simp; ring⟩
  have hS : Convex ℝ (spanned [(a1, a2), (b1, b2), (c1, c2)]) := convex_convexHull ℝ _
  have hin : ∀ q ∈ [(a1, a2), (b1, b2), (c1, c2)],
      toReal q ∈ spanned [(a1, a2), (b1, b2), (c1, c2)] :=
    fun q hq => subset_convexHull ℝ _ (Set.mem_image_of_mem toReal hq)
  have hmem := convex_comb3 hS (hin (a1, a2) (by simp)) (hin (b1, b2) (by simp))
    (hin (c1, c2) (by simp)) (u := (u : ℝ)) (v := (v : ℝ)) (w := (w : ℝ))
    (by exact_mod_cast hu) (by exact_mod_cast hv) (by exact_mod_cast hw) (by exact_mod_cast h1)
  have hp : toReal (p1, p2) =
      (u : ℝ) • toReal (a1, a2) + (v : ℝ) • toReal (b1, b2) + (w : ℝ) • toReal (c1, c2) := by
    apply Prod.ext
    · simp only [toReal, Prod.fst_add, Prod.smul_fst, smul_eq_mul]
      exact_mod_cast hx.symm
    · simp only [toReal, Prod.snd_add, Prod.smul_snd, smul_eq_mul]
      exact_mod_cast hy.symm
  rw [hp]
  exact hmem


/-- C1: the trace of one `display()` is made of exactly five stages, whose
colour-set calls are white, green, red, blue, cyan in this order; every stage
starts with its colour-set call, contains exactly one flush, and that flush
is its last call (so it precedes the next stage's colour-set call); the trace
has exactly five flushes and ends with the flush of the cyan stage. -/
theorem display_five_stages (s : GLState) :
    (stages (emitted display s)).flatten = emitted display s ∧
    (stages (emitted display s)).length = 5 ∧
    (stages (emitted display s)).map (List.filterMap colourOf) =
      [[(1, 1, 1)], [(0, 1, 0)], [(1, 0, 0)], [(0, 0, 1)], [(0, 1, 1)]] ∧
    (stages (emitted display s)).map (fun st => st.head?.bind colourOf) =
      [some (1, 1, 1), some (0, 1, 0), some (1, 0, 0), some (0, 0, 1), some (0, 1, 1)] ∧
    (stages (emitted display s)).map (List.countP isFlush) = [1, 1, 1, 1, 1] ∧
    (stages (emitted display s)).map List.getLast? =
      [some Event.glFlush, some Event.glFlush, some Event.glFlush, some Event.glFlush,
       some Event.glFlush] ∧
    (emitted display s).countP isFlush = 5 ∧
    (emitted display s).getLast? = some Event.glFlush := by
  rw [emitted_of_trace (display_trace s)]
  refine ⟨by simp [stages, stagesFrom_flatten], rfl, ?_, ?_, ?_, ?_, ?_, ?_⟩
  · simp [stages, stagesFrom, isFlush, colourOf, axesCalls, greenCalls, redCalls, blueCalls,
      cyanCalls]
    norm_num
  · simp [stages, stagesFrom, isFlush, colourOf, axesCalls, greenCalls, redCalls, blueCalls,
      cyanCalls]
    norm_num
  · rfl
  · rfl
  · rfl
  · rfl

/-! ## The stages of the display chain -/

theorem ownStage_display (s : GLState) : ownStage (emitted display s) = axesCalls := by
  rw [emitted_of_trace (display_trace s)]
  rfl

theorem ownStage_display1 (s : GLState) : ownStage (emitted display1 s) = greenCalls := by
  rw [emitted_of_trace (display1_trace s)]
  rfl

theorem ownStage_display2 (s : GLState) : ownStage (emitted display2 s) = redCalls := by
  rw [emitted_of_trace (display2_trace s)]
  rfl

theorem ownStage_display3 (s : GLState) : ownStage (emitted display3 s) = blueCalls := by
  rw [emitted_of_trace (display3_trace s)]
  rfl

theorem ownStage_display4 (s : GLState) : ownStage (emitted display4 s) = cyanCalls := by
  rw [emitted_of_trace (display4_trace s)]
  rfl

theorem strips_greenCalls : strips greenCalls =
    [[(0, 0), (0.5, -0.9), (1, 0)], [(0.2, 0), (0.5, -0.6), (0.8, 0)],
     [(0.4, 0), (0.5, -0.3), (0.6, 0)]] := rfl

theorem strips_redCalls : strips redCalls =
    [[(0, 0), (-0.5, 0.9), (-1, 0)], [(-0.2, 0), (-0.5, 0.6), (-0.8, 0)],
     [(-0.4, 0), (-0.5, 0.3), (-0.6, 0)]] := rfl

theorem strips_blueCalls : strips blueCalls =
    [[(0, 0), (0.9, 0.5), (0, 1)], [(0, 0.2), (0.6, 0.5), (0, 0.8)],
     [(0, 0.4), (0.3, 0.5), (0, 0.6)]] := rfl

theorem strips_cyanCalls : strips cyanCalls =
    [[(0, 0), (-0.9, -0.5), (0, -1)], [(0, -0.2), (-0.6, -0.5), (0, -0.8)],
     [(0, -0.4), (-0.3, -0.5), (0, -0.6)]] := rfl

/-- C3: the first stage of `display()` is: colour white, line width 2, one
`GL_LINES` group of exactly the four vertices (-1,0), (1,0), (0,-1), (0,1),
that is the two segments (-1,0)-(1,0) and (0,-1)-(0,1), which meet exactly at
the origin; then a flush, after which come the calls of `display1()`. -/
theorem display_axes_stage (s s1 : GLState) :
    ownStage (emitted display s) =
      [Event.glColor3f 1 1 1, Event.glLineWidth 2, Event.glBegin PrimMode.GL_LINES,
       Event.glVertex2f (-1) 0, Event.glVertex2f 1 0, Event.glVertex2f 0 (-1),
       Event.glVertex2f 0 1, Event.glEnd, Event.glFlush] ∧
    primitives (ownStage (emitted display s)) =
      [(PrimMode.GL_LINES, [(-1, 0), (1, 0), (0, -1), (0, 1)])] ∧
    (primitives (ownStage (emitted display s))).flatMap (fun g => segmentsOf g.1 g.2) =
      [((-1, 0), (1, 0)), ((0, -1), (0, 1))] ∧
    (∀ p : Vertex, (onSegment (-1, 0) (1, 0) p = true ∧ onSegment (0, -1) (0, 1) p = true) ↔
      p = (0, 0)) ∧
    emitted display s = ownStage (emitted display s) ++ emitted display1 s1 := by
  rw [ownStage_display, emitted_of_trace (display_trace s), emitted_of_trace (display1_trace s1)]
  refine ⟨by simp [axesCalls]; norm_num, rfl, rfl, ?_, rfl⟩
  rintro ⟨x, y⟩
  simp only [onSegment, decide_eq_true_eq, Prod.mk.injEq]
  norm_num
  constructor
  · rintro ⟨⟨h1, -, -, -, -⟩, h2, -, -, -, -⟩
    exact ⟨h2, h1⟩
  · rintro ⟨rfl, rfl⟩
    norm_num

theorem petalStage_greenCalls : PetalStage greenCalls (0, 1, 0) 0 1 (-1) 0 := by
  refine ⟨by simp [greenCalls]; norm_num, by simp [greenCalls, colourOf]; norm_num, rfl, rfl, rfl,
    rfl, rfl, ?_⟩
  simp [greenCalls, vertexOf]
  norm_num

theorem petalStage_redCalls : PetalStage redCalls (1, 0, 0) (-1) 0 0 1 := by
  refine ⟨by simp [redCalls]; norm_num, by simp [redCalls, colourOf]; norm_num, rfl, rfl, rfl,
    rfl, rfl, ?_⟩
  simp [redCalls, vertexOf]
  norm_num

theorem petalStage_blueCalls : PetalStage blueCalls (0, 0, 1) 0 1 0 1 := by
  refine ⟨by simp [blueCalls]; norm_num, by simp [blueCalls, colourOf]; norm_num, rfl, rfl, rfl,
    rfl, rfl, ?_⟩
  simp [blueCalls, vertexOf]
  norm_num

theorem petalStage_cyanCalls : PetalStage cyanCalls (0, 1, 1) (-1) 0 (-1) 0 := by
  refine ⟨by simp [cyanCalls]; norm_num, by simp [cyanCalls, colourOf]; norm_num, rfl, rfl, rfl,
    rfl, rfl, ?_⟩
  simp [cyanCalls, vertexOf]
  norm_num

/-- C4: the own stage of `display1()` selects green (0,1,0) and consists of
exactly three `GL_LINE_STRIP` groups of exactly three vertices each; each of
its nine vertices satisfies 0 ≤ x ≤ 1 and -1 ≤ y ≤ 0. -/
theorem display1_green_stage (s : GLState) :
    PetalStage (ownStage (emitted display1 s)) (0, 1, 0) 0 1 (-1) 0 := by
  rw [ownStage_display1]
  exact petalStage_greenCalls

/-- C5: the own stages of `display2()`, `display3()`, `display4()` select red,
blue and cyan and each consist of exactly three line strips of exactly three
vertices; the red vertices lie in -1 ≤ x ≤ 0, 0 ≤ y ≤ 1, the blue ones in
0 ≤ x ≤ 1, 0 ≤ y ≤ 1, the cyan ones in -1 ≤ x ≤ 0, -1 ≤ y ≤ 0. -/
theorem display234_petal_stages (s : GLState) :
    PetalStage (ownStage (emitted display2 s)) (1, 0, 0) (-1) 0 0 1 ∧
    PetalStage (ownStage (emitted display3 s)) (0, 0, 1) 0 1 0 1 ∧
    PetalStage (ownStage (emitted display4 s)) (0, 1, 1) (-1) 0 (-1) 0 := by
  rw [ownStage_display2, ownStage_display3, ownStage_display4]
  exact ⟨petalStage_redCalls, petalStage_blueCalls, petalStage_cyanCalls⟩

/-- C10: keeping strip order and vertex order, the strips of `display3()` are
those of `display1()` turned by (x,y) -> (-y,x), the strips of `display2()`
are those of `display1()` turned by (x,y) -> (-x,-y), and the strips of
`display4()` are those of `display1()` turned by (x,y) -> (y,-x). -/
theorem petals_are_rotations (s : GLState) :
    strips (ownStage (emitted display3 s)) =
      (strips (ownStage (emitted display1 s))).map (List.map rot90) ∧
    strips (ownStage (emitted display2 s)) =
      (strips (ownStage (emitted display1 s))).map (List.map rot180) ∧
    strips (ownStage (emitted display4 s)) =
      (strips (ownStage (emitted display1 s))).map (List.map rot270) ∧
    ((strips (ownStage (emitted display1 s))).map List.length) = [3, 3, 3] := by
  rw [ownStage_display1, ownStage_display2, ownStage_display3, ownStage_display4,
    strips_greenCalls, strips_redCalls, strips_blueCalls, strips_cyanCalls]
  refine ⟨?_, ?_, ?_, rfl⟩ <;> simp [rot90, rot180, rot270]

/-! ## Disjoint and nested strips -/

/-- A convex combination of two numbers of the same strict sign is not zero. -/
theorem convex_comb_ne_zero {u1 u2 C D : ℝ} (hu1 : 0 ≤ u1) (hu2 : 0 ≤ u2) (hu : u1 + u2 = 1)
    (hCD : 0 < C * D) : u1 * C + u2 * D ≠ 0 := by
  intro h0
  rcases pos_and_pos_or_neg_and_neg_of_mul_pos hCD with ⟨hc, hd⟩ | ⟨hc, hd⟩
  · have hA := mul_nonneg hu1 hc.le
    have hB := mul_nonneg hu2 hd.le
    have hA0 : u1 * C = 0 := by linarith
    have hB0 : u2 * D = 0 := by linarith
    rcases mul_eq_zero.1 hA0 with h | h <;> rcases mul_eq_zero.1 hB0 with k | k <;> linarith
  · have hA := mul_nonneg hu1 (neg_nonneg.2 hc.le)
    have hB := mul_nonneg hu2 (neg_nonneg.2 hd.le)
    have hA0 : u1 * C = 0 := by linarith
    have hB0 : u2 * D = 0 := by linarith
    rcases mul_eq_zero.1 hA0 with h | h <;> rcases mul_eq_zero.1 hB0 with k | k <;> linarith

/-- The executable side test is sound: a segment whose end points lie strictly
on one side of the line through `a` and `b` does not meet the segment from `a`
to `b`. -/
theorem segment_disjoint_of_sameSide (a b c d : Vertex) (h : sameSide a b c d = true) :
    Disjoint (segment ℝ (toReal a) (toReal b)) (segment ℝ (toReal c) (toReal d)) := by
  obtain ⟨a1, a2⟩ := a
  obtain ⟨b1, b2⟩ := b
  obtain ⟨c1, c2⟩ := c
  obtain ⟨d1, d2⟩ := d
  simp only [sameSide, decide_eq_true_eq] at h
  have hR : (0 : ℝ) < (((b1 : ℝ) - a1) * (c2 - a2) - (b2 - a2) * (c1 - a1)) *
      ((b1 - a1) * (d2 - a2) - (b2 - a2) * (d1 - a1)) := by exact_mod_cast h
  rw [Set.disjoint_left]
  rintro ⟨x, y⟩ ⟨t1, t2, ht1, ht2, ht, hp⟩ ⟨u1, u2, hu1, hu2, hu, hq⟩
  simp only [toReal, Prod.smul_mk, Prod.mk_add_mk, Prod.mk.injEq, smul_eq_mul] at hp hq
  obtain ⟨hx, hy⟩ := hp
  obtain ⟨hx2, hy2⟩ := hq
  have h0 : ((b1 : ℝ) - a1) * (y - a2) - (b2 - a2) * (x - a1) = 0 := by
    have e1 : t1 = 1 - t2 := by linarith
    rw [← hx, ← hy, e1]
    ring
  have h1 : ((b1 : ℝ) - a1) * (y - a2) - (b2 - a2) * (x - a1) =
      u1 * ((b1 - a1) * (c2 - a2) - (b2 - a2) * (c1 - a1)) +
      u2 * ((b1 - a1) * (d2 - a2) - (b2 - a2) * (d1 - a1)) := by
    have e2 : u1 = 1 - u2 := by linarith
    rw [← hx2, ← hy2, e2]
    ring
  rw [h1] at h0
  exact convex_comb_ne_zero hu1 hu2 hu hR h0

/-- Two three-vertex strips whose segments pass the side test pairwise have
disjoint polylines. -/
theorem polyline3_disjoint (a b c d e f : Vertex)
    (h : (sameSide a b d e && sameSide a b e f && sameSide b c d e && sameSide b c e f) = true) :
    Disjoint (polyline [a, b, c]) (polyline [d, e, f]) := by
  simp only [Bool.and_eq_true] at h
  obtain ⟨⟨⟨h1, h2⟩, h3⟩, h4⟩ := h
  rw [Set.disjoint_left]
  intro p hp hq
  simp only [polyline, segmentsOf, List.mem_cons, List.mem_singleton, List.not_mem_nil,
    or_false, Set.mem_setOf_eq, exists_eq_or_imp, exists_eq_left] at hp hq
  rcases hp with hp | hp <;> rcases hq with hq | hq
  · exact Set.disjoint_left.1 (segment_disjoint_of_sameSide _ _ _ _ h1) hp hq
  · exact Set.disjoint_left.1 (segment_disjoint_of_sameSide _ _ _ _ h2) hp hq
  · exact Set.disjoint_left.1 (segment_disjoint_of_sameSide _ _ _ _ h3) hp hq
  · exact Set.disjoint_left.1 (segment_disjoint_of_sameSide _ _ _ _ h4) hp hq

/-- Three three-vertex strips that pass the executable tests are disjoint and
nested. -/
theorem nestedDisjoint_of_tests (a b c d e f g h k : Vertex)
    (h12 : (sameSide a b d e && sameSide a b e f && sameSide b c d e && sameSide b c e f) = true)
    (h13 : (sameSide a b g h && sameSide a b h k && sameSide b c g h && sameSide b c h k) = true)
    (h23 : (sameSide d e g h && sameSide d e h k && sameSide e f g h && sameSide e f h k) = true)
    (hin2 : (inTriangle a b c d && inTriangle a b c e && inTriangle a b c f) = true)
    (hin3 : (inTriangle d e f g && inTriangle d e f h && inTriangle d e f k) = true) :
    NestedDisjoint [[a, b, c], [d, e, f], [g, h, k]] := by
  simp only [Bool.and_eq_true] at hin2 hin3
  refine ⟨rfl, ?_, ?_⟩
  · simp only [List.pairwise_cons, List.mem_cons, List.mem_singleton, List.not_mem_nil,
      forall_eq_or_imp, forall_eq, List.Pairwise.nil, and_true, or_false, IsEmpty.forall_iff,
      implies_true]
    exact ⟨⟨polyline3_disjoint _ _ _ _ _ _ h12, polyline3_disjoint _ _ _ _ _ _ h13⟩,
      polyline3_disjoint _ _ _ _ _ _ h23⟩
  · simp only [List.chain'_cons, List.chain'_singleton, List.length_cons, List.length_nil,
      List.mem_cons, List.mem_singleton, List.not_mem_nil, forall_eq_or_imp, forall_eq,
      or_false, IsEmpty.forall_iff, implies_true, and_true, true_and, zero_add, Nat.reduceAdd]
    exact ⟨⟨mem_spanned_of_inTriangle _ _ _ _ hin2.1.1, mem_spanned_of_inTriangle _ _ _ _ hin2.1.2,
      mem_spanned_of_inTriangle _ _ _ _ hin2.2⟩, mem_spanned_of_inTriangle _ _ _ _ hin3.1.1,
      mem_spanned_of_inTriangle _ _ _ _ hin3.1.2, mem_spanned_of_inTriangle _ _ _ _ hin3.2⟩

/-- C9: in each of the four petal stages the three strips are disjoint and
nested: the polylines of any two strips share no point of the plane, and every
vertex of the second (third) strip lies in the closed triangle spanned by the
three vertices of the first (second) strip. -/
theorem petal_strips_disjoint_nested (s : GLState) :
    NestedDisjoint (strips (ownStage (emitted display1 s))) ∧
    NestedDisjoint (strips (ownStage (emitted display2 s))) ∧
    NestedDisjoint (strips (ownStage (emitted display3 s))) ∧
    NestedDisjoint (strips (ownStage (emitted display4 s))) := by
  rw [ownStage_display1, ownStage_display2, ownStage_display3, ownStage_display4,
    strips_greenCalls, strips_redCalls, strips_blueCalls, strips_cyanCalls]
  refine ⟨?_, ?_, ?_, ?_⟩ <;>
    exact nestedDisjoint_of_tests _ _ _ _ _ _ _ _ _ (by norm_num [sameSide])
      (by norm_num [sameSide]) (by norm_num [sameSide]) (by norm_num [inTriangle])
      (by norm_num [inTriangle])

/-! ## How the calls act on the frame -/

theorem paintAll_append (cov : ℚ → Vertex → Vertex → Vertex → Bool) (ks1 ks2 : List Stroke)
    (f : Vertex → RGBA) :
    paintAll cov (ks1 ++ ks2) f = paintAll cov ks2 (paintAll cov ks1 f) := by
  simp [paintAll, List.foldl_append]

theorem paintAll_cons (cov : ℚ → Vertex → Vertex → Vertex → Bool) (k : Stroke)
    (ks : List Stroke) (f : Vertex → RGBA) :
    paintAll cov (k :: ks) f = paintAll cov ks (paint cov f k) := rfl

theorem paintAll_nil (cov : ℚ → Vertex → Vertex → Vertex → Bool) (f : Vertex → RGBA) :
    paintAll cov [] f = f := rfl

theorem frame_glColor3f (r g b : ℚ) (s : GLState) : (glColor3f r g b s).frame = s.frame := rfl

theorem covers_glColor3f (r g b : ℚ) (s : GLState) :
    (glColor3f r g b s).covers = s.covers := rfl

theorem color_glColor3f (r g b : ℚ) (s : GLState) :
    (glColor3f r g b s).color = (r, g, b, 1) := rfl

theorem lineWidth_glColor3f (r g b : ℚ) (s : GLState) :
    (glColor3f r g b s).lineWidth = s.lineWidth := rfl

theorem frame_glLineWidth (w : ℚ) (s : GLState) : (glLineWidth w s).frame = s.frame := rfl

theorem covers_glLineWidth (w : ℚ) (s : GLState) : (glLineWidth w s).covers = s.covers := rfl

theorem color_glLineWidth (w : ℚ) (s : GLState) : (glLineWidth w s).color = s.color := rfl

theorem lineWidth_glLineWidth (w : ℚ) (s : GLState) : (glLineWidth w s).lineWidth = w := rfl

theorem frame_glFlush (s : GLState) : (glFlush s).frame = s.frame := rfl

theorem covers_glFlush (s : GLState) : (glFlush s).covers = s.covers := rfl

theorem color_glFlush (s : GLState) : (glFlush s).color = s.color := rfl

theorem lineWidth_glFlush (s : GLState) : (glFlush s).lineWidth = s.lineWidth := rfl

/-- A `GL_LINE_STRIP` group of three vertices writes its two segments. -/
theorem frame_strip3 (a1 a2 b1 b2 c1 c2 : ℚ) (s : GLState) :
    (glEnd (glVertex2f c1 c2 (glVertex2f b1 b2 (glVertex2f a1 a2
      (glBegin PrimMode.GL_LINE_STRIP s))))).frame =
    paintAll s.covers (strokesOf s.lineWidth s.color PrimMode.GL_LINE_STRIP
      [(a1, a2), (b1, b2), (c1, c2)]) s.frame := by
  cases s
  rfl

theorem covers_strip3 (a1 a2 b1 b2 c1 c2 : ℚ) (s : GLState) :
    (glEnd (glVertex2f c1 c2 (glVertex2f b1 b2 (glVertex2f a1 a2
      (glBegin PrimMode.GL_LINE_STRIP s))))).covers = s.covers := by
  cases s
  rfl

theorem color_strip3 (a1 a2 b1 b2 c1 c2 : ℚ) (s : GLState) :
    (glEnd (glVertex2f c1 c2 (glVertex2f b1 b2 (glVertex2f a1 a2
      (glBegin PrimMode.GL_LINE_STRIP s))))).color = s.color := by
  cases s
  rfl

theorem lineWidth_strip3 (a1 a2 b1 b2 c1 c2 : ℚ) (s : GLState) :
    (glEnd (glVertex2f c1 c2 (glVertex2f b1 b2 (glVertex2f a1 a2
      (glBegin PrimMode.GL_LINE_STRIP s))))).lineWidth = s.lineWidth := by
  cases s
  rfl

/-- A `GL_LINES` group of four vertices writes its two segments. -/
theorem frame_lines4 (a1 a2 b1 b2 c1 c2 d1 d2 : ℚ) (s : GLState) :
    (glEnd (glVertex2f d1 d2 (glVertex2f c1 c2 (glVertex2f b1 b2 (glVertex2f a1 a2
      (glBegin PrimMode.GL_LINES s)))))).frame =
    paintAll s.covers (strokesOf s.lineWidth s.color PrimMode.GL_LINES
      [(a1, a2), (b1, b2), (c1, c2), (d1, d2)]) s.frame := by
  cases s
  rfl

theorem covers_lines4 (a1 a2 b1 b2 c1 c2 d1 d2 : ℚ) (s : GLState) :
    (glEnd (glVertex2f d1 d2 (glVertex2f c1 c2 (glVertex2f b1 b2 (glVertex2f a1 a2
      (glBegin PrimMode.GL_LINES s)))))).covers = s.covers := by
  cases s
  rfl

/-- `display4` writes a fixed list of strokes over the frame. -/
theorem paints_display4 : ∃ ks : List Stroke, ∀ s : GLState,
    (display4 s).covers = s.covers ∧ (display4 s).frame = paintAll s.covers ks s.frame := by
  refine ⟨(strips cyanCalls).flatMap (strokesOf 2 (0.0, 1.0, 1.0, 1) PrimMode.GL_LINE_STRIP),
    fun s => ?_⟩
  simp only [display4, frame_glFlush, covers_glFlush, frame_strip3, covers_strip3, color_strip3,
    lineWidth_strip3, frame_glLineWidth, covers_glLineWidth, color_glLineWidth,
    lineWidth_glLineWidth, frame_glColor3f, covers_glColor3f, color_glColor3f,
    lineWidth_glColor3f, ← paintAll_append, strips_cyanCalls, List.flatMap_cons,
    List.flatMap_nil, List.append_nil, List.append_assoc, and_self]

/-- `display3` and the routine it calls write a fixed list of strokes. -/
theorem paints_display3 : ∃ ks : List Stroke, ∀ s : GLState,
    (display3 s).covers = s.covers ∧ (display3 s).frame = paintAll s.covers ks s.frame := by
  obtain ⟨ks4, h4⟩ := paints_display4
  refine ⟨(strips blueCalls).flatMap (strokesOf 2 (0.0, 0.0, 1.0, 1) PrimMode.GL_LINE_STRIP) ++
    ks4, fun s => ?_⟩
  simp only [display3, (h4 _).1, (h4 _).2, frame_glFlush, covers_glFlush, frame_strip3,
    covers_strip3, color_strip3, lineWidth_strip3, frame_glLineWidth, covers_glLineWidth,
    color_glLineWidth, lineWidth_glLineWidth, frame_glColor3f, covers_glColor3f,
    color_glColor3f, lineWidth_glColor3f, ← paintAll_append, strips_blueCalls,
    List.flatMap_cons, List.flatMap_nil, List.append_nil, List.append_assoc, and_self]

/-- `display2` and the routines it calls write a fixed list of strokes. -/
theorem paints_display2 : ∃ ks : List Stroke, ∀ s : GLState,
    (display2 s).covers = s.covers ∧ (display2 s).frame = paintAll s.covers ks s.frame := by
  obtain ⟨ks3, h3⟩ := paints_display3
  refine ⟨(strips redCalls).flatMap (strokesOf 2 (1.0, 0.0, 0.0, 1) PrimMode.GL_LINE_STRIP) ++
    ks3, fun s => ?_⟩
  simp only [display2, (h3 _).1, (h3 _).2, frame_glFlush, covers_glFlush, frame_strip3,
    covers_strip3, color_strip3, lineWidth_strip3, frame_glLineWidth, covers_glLineWidth,
    color_glLineWidth, lineWidth_glLineWidth, frame_glColor3f, covers_glColor3f,
    color_glColor3f, lineWidth_glColor3f, ← paintAll_append, strips_redCalls,
    List.flatMap_cons, List.flatMap_nil, List.append_nil, List.append_assoc, and_self]

/-- `display1` and the routines it calls write a fixed list of strokes. -/
theorem paints_display1 : ∃ ks : List Stroke, ∀ s : GLState,
    (display1 s).covers = s.covers ∧ (display1 s).frame = paintAll s.covers ks s.frame := by
  obtain ⟨ks2, h2⟩ := paints_display2
  refine ⟨(strips greenCalls).flatMap (strokesOf 2 (0.0, 1.0, 0.0, 1) PrimMode.GL_LINE_STRIP) ++
    ks2, fun s => ?_⟩
  simp only [display1, (h2 _).1, (h2 _).2, frame_glFlush, covers_glFlush, frame_strip3,
    covers_strip3, color_strip3, lineWidth_strip3, frame_glLineWidth, covers_glLineWidth,
    color_glLineWidth, lineWidth_glLineWidth, frame_glColor3f, covers_glColor3f,
    color_glColor3f, lineWidth_glColor3f, ← paintAll_append, strips_greenCalls,
    List.flatMap_cons, List.flatMap_nil, List.append_nil, List.append_assoc, and_self]

/-- The frame after `display` is the frame before with a fixed list of strokes
written over it; the rasterisation rule is left as it was. -/
theorem display_frame_paints : ∃ ks : List Stroke, ∀ s : GLState,
    (display s).covers = s.covers ∧ (display s).frame = paintAll s.covers ks s.frame := by
  obtain ⟨ks1, h1⟩ := paints_display1
  refine ⟨strokesOf 2 (1.0, 1.0, 1.0, 1) PrimMode.GL_LINES [(-1, 0), (1, 0), (0, -1), (0, 1)] ++
    ks1, fun s => ?_⟩
  simp only [display, (h1 _).1, (h1 _).2, frame_glFlush, covers_glFlush, frame_lines4,
    covers_lines4, frame_glLineWidth, covers_glLineWidth, color_glLineWidth,
    lineWidth_glLineWidth, frame_glColor3f, covers_glColor3f, color_glColor3f,
    lineWidth_glColor3f, ← paintAll_append, and_self]

/-! ## Frames: strokes written over strokes -/

/-- A point that no stroke covers keeps its colour. -/
theorem paintAll_of_uncovered (cov : ℚ → Vertex → Vertex → Vertex → Bool) (ks : List Stroke)
    (f : Vertex → RGBA) (p : Vertex) (h : ∀ k ∈ ks, cov k.width k.a k.b p = false) :
    paintAll cov ks f p = f p := by
  induction ks generalizing f with
  | nil => rfl
  | cons k ks ih =>
    have hk : cov k.width k.a k.b p = false := h k (List.mem_cons_self k ks)
    have hrest : ∀ k1 ∈ ks, cov k1.width k1.a k1.b p = false :=
      fun k1 h1 => h k1 (List.mem_cons_of_mem k h1)
    show paintAll cov ks (paint cov f k) p = f p
    rw [ih (paint cov f k) hrest]
    simp [paint, hk]

/-- The colour of a point after the strokes depends on the frame before only
when no stroke covers the point. -/
theorem paintAll_congr (cov : ℚ → Vertex → Vertex → Vertex → Bool) (ks : List Stroke)
    (f g : Vertex → RGBA) (p : Vertex)
    (h : (∀ k ∈ ks, cov k.width k.a k.b p = false) → f p = g p) :
    paintAll cov ks f p = paintAll cov ks g p := by
  induction ks generalizing f g with
  | nil => exact h (fun _ hk => absurd hk (List.not_mem_nil _))
  | cons k ks ih =>
    show paintAll cov ks (paint cov f k) p = paintAll cov ks (paint cov g k) p
    apply ih
    intro hrest
    cases hk : cov k.width k.a k.b p with
    | true => simp [paint, hk]
    | false =>
      have hfg : f p = g p := h (fun k1 h1 => by
        rcases List.mem_cons.1 h1 with rfl | h2
        · exact hk
        · exact hrest k1 h2)
      simp [paint, hk, hfg]

/-- Writing the same strokes a second time changes nothing. -/
theorem paintAll_idem (cov : ℚ → Vertex → Vertex → Vertex → Bool) (ks : List Stroke)
    (f : Vertex → RGBA) : paintAll cov ks (paintAll cov ks f) = paintAll cov ks f := by
  funext p
  exact paintAll_congr cov ks _ _ p (fun h => paintAll_of_uncovered cov ks f p h)

/-- C7: redraw is deterministic and idempotent: `display()` logs the same
calls from every state, in particular on a second invocation right after the
first; and for every starting state the frame after two invocations equals the
frame after one. -/
theorem display_deterministic_idempotent (s s1 : GLState) :
    emitted display s = emitted display s1 ∧
    emitted display (display s) = emitted display s ∧
    (display (display s)).frame = (display s).frame := by
  refine ⟨?_, ?_, ?_⟩
  · rw [emitted_of_trace (display_trace s), emitted_of_trace (display_trace s1)]
  · rw [emitted_of_trace (display_trace s), emitted_of_trace (display_trace (display s))]
  · obtain ⟨ks, hks⟩ := display_frame_paints
    rw [(hks (display s)).2, (hks s).1, (hks s).2]
    exact paintAll_idem s.covers ks s.frame

/-! ## Initialization -/

/-- The graphics state `init` leaves: clear colour (0,0,0,0) and a frame that
holds it everywhere. -/
theorem init_state (s : GLState) :
    (init s).clearColor = (0, 0, 0, 0) ∧ (init s).frame = fun _ => (0, 0, 0, 0) := by
  have h0 : clamp01 0 = 0 := by norm_num [clamp01]
  constructor
  · show (clamp01 0, clamp01 0, clamp01 0, clamp01 0) = _
    rw [h0]
  · show (fun _ => (clamp01 0, clamp01 0, clamp01 0, clamp01 0)) = _
    rw [h0]

/-- C6: `init()` logs exactly: set clear colour (0,0,0,0), clear the colour
buffer, flush; and for every starting state and every n ≥ 1, n runs of
`init()` leave the clear colour and the frame that one run leaves: clear
colour (0,0,0,0) and a frame holding that colour at every point. -/
theorem init_idempotent (s : GLState) (n : ℕ) (hn : 1 ≤ n) :
    emitted init s =
      [Event.glClearColor 0 0 0 0, Event.glClear ClearMask.GL_COLOR_BUFFER_BIT,
       Event.glFlush] ∧
    (init^[n] s).clearColor = (init s).clearColor ∧
    (init^[n] s).frame = (init s).frame ∧
    (init s).clearColor = (0, 0, 0, 0) ∧
    ∀ p, (init s).frame p = (0, 0, 0, 0) := by
  obtain ⟨m, rfl⟩ : ∃ m, n = m + 1 := ⟨n - 1, by omega⟩
  rw [Function.iterate_succ_apply']
  refine ⟨emitted_of_trace (init_trace s), ?_, ?_, (init_state s).1, ?_⟩
  · rw [(init_state s).1, (init_state _).1]
  · rw [(init_state s).2, (init_state _).2]
  · intro p
    rw [(init_state s).2]

/-- Witness for C6: three runs of `init()` from the state of a fresh process. -/
theorem init_idempotent_witness :
    1 ≤ 3 ∧ (init^[3] GLState.initial).frame = (init GLState.initial).frame ∧
    (init^[3] GLState.initial).clearColor = (init GLState.initial).clearColor :=
  ⟨by decide, (init_idempotent GLState.initial 3 (by decide)).2.2.1,
    (init_idempotent GLState.initial 3 (by decide)).2.1⟩

/-! ## Start-up and the event loop -/

theorem trace_glutInit (argv : List String) (s : GLState) :
    (glutInit argv s).trace = s.trace ++ [Event.glutInit argv] := rfl

theorem trace_glutInitWindowSize (w h : Int) (s : GLState) :
    (glutInitWindowSize w h s).trace = s.trace ++ [Event.glutInitWindowSize w h] := rfl

theorem trace_glutInitWindowPosition (x y : Int) (s : GLState) :
    (glutInitWindowPosition x y s).trace = s.trace ++ [Event.glutInitWindowPosition x y] := rfl

theorem trace_glutCreateWindow (title : String) (s : GLState) :
    (glutCreateWindow title s).trace = s.trace ++ [Event.glutCreateWindow title] := rfl

theorem trace_glutDisplayFunc (f : Callback) (s : GLState) :
    (glutDisplayFunc f s).trace = s.trace ++ [Event.glutDisplayFunc f] := rfl

/-- A vertex call leaves the windowing part of the state (requested size and
position, window, registered display callback) as it was. -/
theorem window_glVertex2f (x y : ℚ) (s : GLState) :
    (glVertex2f x y s).windowSize = s.windowSize ∧ (glVertex2f x y s).windowPos = s.windowPos ∧
    (glVertex2f x y s).window = s.window ∧ (glVertex2f x y s).displayFunc = s.displayFunc := by
  obtain ⟨_, _, _, mode, pending, _, _, _, _, _, _, _⟩ := s
  rcases mode with _ | _ | _ <;> rcases pending with _ | _ <;> exact ⟨rfl, rfl, rfl, rfl⟩

/-- No drawing call touches the windowing part of the state. -/
theorem window_display (s : GLState) :
    (display s).windowSize = s.windowSize ∧ (display s).windowPos = s.windowPos ∧
    (display s).window = s.window ∧ (display s).displayFunc = s.displayFunc := by
  have hC : ∀ (r g b : ℚ) (t : GLState),
      (glColor3f r g b t).windowSize = t.windowSize ∧ (glColor3f r g b t).windowPos = t.windowPos ∧
      (glColor3f r g b t).window = t.window ∧ (glColor3f r g b t).displayFunc = t.displayFunc :=
    fun _ _ _ t => by cases t; exact ⟨rfl, rfl, rfl, rfl⟩
  have hW : ∀ (w : ℚ) (t : GLState),
      (glLineWidth w t).windowSize = t.windowSize ∧ (glLineWidth w t).windowPos = t.windowPos ∧
      (glLineWidth w t).window = t.window ∧ (glLineWidth w t).displayFunc = t.displayFunc :=
    fun _ t => by cases t; exact ⟨rfl, rfl, rfl, rfl⟩
  have hB : ∀ (m : PrimMode) (t : GLState),
      (glBegin m t).windowSize = t.windowSize ∧ (glBegin m t).windowPos = t.windowPos ∧
      (glBegin m t).window = t.window ∧ (glBegin m t).displayFunc = t.displayFunc :=
    fun _ t => by cases t; exact ⟨rfl, rfl, rfl, rfl⟩
  have hE : ∀ t : GLState,
      (glEnd t).windowSize = t.windowSize ∧ (glEnd t).windowPos = t.windowPos ∧
      (glEnd t).window = t.window ∧ (glEnd t).displayFunc = t.displayFunc :=
    fun t => by cases t; exact ⟨rfl, rfl, rfl, rfl⟩
  have hF : ∀ t : GLState,
      (glFlush t).windowSize = t.windowSize ∧ (glFlush t).windowPos = t.windowPos ∧
      (glFlush t).window = t.window ∧ (glFlush t).displayFunc = t.displayFunc :=
    fun t => by cases t; exact ⟨rfl, rfl, rfl, rfl⟩
  have hV := window_glVertex2f
  simp only [display, display1, display2, display3, display4, hC, hW, hB, hE, hF, hV, and_self]

/-- After `n` redraws: the log has grown by `n` copies of the calls of
`display`, and the windowing part of the state is as before. -/
theorem iterate_display (n : ℕ) (s : GLState) :
    (display^[n] s).trace = s.trace ++ (List.replicate n (emitted display s)).flatten ∧
    (display^[n] s).windowSize = s.windowSize ∧ (display^[n] s).windowPos = s.windowPos ∧
    (display^[n] s).window = s.window ∧ (display^[n] s).displayFunc = s.displayFunc := by
  induction n with
  | zero => simp
  | succ n ih =>
    obtain ⟨h1, h2, h3, h4, h5⟩ := ih
    obtain ⟨k2, k3, k4, k5⟩ := window_display (display^[n] s)
    rw [Function.iterate_succ_apply']
    refine ⟨?_, k2.trans h2, k3.trans h3, k4.trans h4, k5.trans h5⟩
    rw [display_trace, h1, emitted_of_trace (display_trace s), List.replicate_succ',
      List.flatten_append]
    simp

/-- With `display` registered, the loop logs its entry and then redraws. -/
theorem glutMainLoop_display (n : ℕ) (s : GLState) (h : s.displayFunc = some Callback.display) :
    glutMainLoop n s = display^[n] (emit Event.glutMainLoop s) := by
  have h1 : (emit Event.glutMainLoop s).displayFunc = some Callback.display := h
  simp only [glutMainLoop, h1]
  rfl

/-- The log and the final windowing state of `main`. -/
theorem main_run (argv : List String) (redraws : ℕ) (loopReturns : Bool) (s : GLState) :
    (main argv redraws loopReturns s).1.trace = s.trace ++
      ([Event.glutInit argv, Event.glutInitWindowSize 500 500,
        Event.glutInitWindowPosition 70 70, Event.glutCreateWindow "Basic Window"] ++
       (initCalls ++ ([Event.glutDisplayFunc Callback.display, Event.glutMainLoop] ++
        (List.replicate redraws (emitted display s)).flatten))) ∧
    (main argv redraws loopReturns s).1.windowSize = (500, 500) ∧
    (main argv redraws loopReturns s).1.windowPos = (70, 70) ∧
    (main argv redraws loopReturns s).1.window = some "Basic Window" ∧
    (main argv redraws loopReturns s).1.displayFunc = some Callback.display := by
  have hI : ∀ t : GLState,
      (init t).windowSize = t.windowSize ∧ (init t).windowPos = t.windowPos ∧
      (init t).window = t.window := fun t => by cases t; exact ⟨rfl, rfl, rfl⟩
  simp only [main]
  rw [glutMainLoop_display _ _ rfl]
  obtain ⟨h1, h2, h3, h4, h5⟩ := iterate_display redraws (emit Event.glutMainLoop
    (glutDisplayFunc Callback.display (init (glutCreateWindow "Basic Window"
      (glutInitWindowPosition 70 70 (glutInitWindowSize 500 500 (glutInit argv s)))))))
  refine ⟨?_, ?_, ?_, ?_, ?_⟩
  · rw [h1, trace_emit, trace_glutDisplayFunc, init_trace, trace_glutCreateWindow,
      trace_glutInitWindowPosition, trace_glutInitWindowSize, trace_glutInit,
      emitted_of_trace (display_trace s), emitted_of_trace (display_trace _)]
    simp only [List.append_assoc, List.singleton_append, List.cons_append, List.nil_append]
  · rw [h2]
    exact ((hI _).1)
  · rw [h3]
    exact ((hI _).2.1)
  · rw [h4]
    exact ((hI _).2.2)
  · rw [h5]
    rfl

/-- Copies of a list without a match have no match. -/
theorem countP_flatten_replicate (p : Event → Bool) (n : ℕ) (l : List Event)
    (h : l.countP p = 0) : (List.replicate n l).flatten.countP p = 0 := by
  induction n with
  | zero => rfl
  | succ n ih => simp [List.replicate_succ, h, ih]

/-- C8: for every argument vector (and every number of redraws the windowing
system asks for), `main()` logs: `glutInit` with the arguments, window size
500 by 500, window position (70,70), `glutCreateWindow("Basic Window")`, the
calls of one `init()`, `glutDisplayFunc(display)`, `glutMainLoop`, and only
then the calls of the redraws; `init()` runs exactly once; the window has the
requested size, position and title; and when the loop returns, `main`
returns 0. -/
theorem main_startup_sequence (argv : List String) (redraws : ℕ) (loopReturns : Bool)
    (s : GLState) :
    emitted (fun t => (main argv redraws loopReturns t).1) s =
      [Event.glutInit argv, Event.glutInitWindowSize 500 500,
       Event.glutInitWindowPosition 70 70, Event.glutCreateWindow "Basic Window"] ++
      emitted init (glutCreateWindow "Basic Window" (glutInitWindowPosition 70 70
        (glutInitWindowSize 500 500 (glutInit argv s)))) ++
      [Event.glutDisplayFunc Callback.display, Event.glutMainLoop] ++
      (List.replicate redraws (emitted display s)).flatten ∧
    (emitted (fun t => (main argv redraws loopReturns t).1) s).countP isClearColor = 1 ∧
    (emitted (fun t => (main argv redraws loopReturns t).1) s).countP isClear = 1 ∧
    (main argv redraws loopReturns s).1.windowSize = (500, 500) ∧
    (main argv redraws loopReturns s).1.windowPos = (70, 70) ∧
    (main argv redraws loopReturns s).1.window = some "Basic Window" ∧
    (main argv redraws loopReturns s).1.displayFunc = some Callback.display ∧
    (main argv redraws loopReturns s).2 = (if loopReturns then some 0 else none) ∧
    (main argv redraws true s).2 = some 0 := by
  obtain ⟨h1, h2, h3, h4, h5⟩ := main_run argv redraws loopReturns s
  have hd : emitted display s =
      axesCalls ++ (greenCalls ++ (redCalls ++ (blueCalls ++ cyanCalls))) :=
    emitted_of_trace (display_trace s)
  rw [emitted_of_trace (f := fun t => (main argv redraws loopReturns t).1) h1,
    emitted_of_trace (init_trace _)]
  refine ⟨by simp only [List.append_assoc], ?_, ?_, h2, h3, h4, h5, rfl, rfl⟩
  · rw [List.countP_append, List.countP_append, List.countP_append,
      countP_flatten_replicate _ _ _ (by rw [hd]; rfl)]
    rfl
  · rw [List.countP_append, List.countP_append, List.countP_append,
      countP_flatten_replicate _ _ _ (by rw [hd]; rfl)]
    rfl

/-- C2, as the code has it: `display()` issues no clear of the colour buffer
(so none before its first line-drawing call); the clear is issued by
`init()`, once, and `main()` runs `init()` before it registers `display`:
in the log of `main()` the colour buffer is cleared exactly once, whatever the
number of redraws, and that clear precedes the first line-drawing call. -/
theorem clear_is_issued_by_init_only (argv : List String) (redraws : ℕ) (loopReturns : Bool)
    (s : GLState) :
    (emitted display s).any isClear = false ∧
    clearsBeforeDrawing (emitted display s) = false ∧
    (emitted init s).countP isClear = 1 ∧
    (emitted (fun t => (main argv redraws loopReturns t).1) s).countP isClear = 1 ∧
    clearsBeforeDrawing (emitted (fun t => (main argv redraws loopReturns t).1) s) = true := by
  have hd : emitted display s =
      axesCalls ++ (greenCalls ++ (redCalls ++ (blueCalls ++ cyanCalls))) :=
    emitted_of_trace (display_trace s)
  have hm := emitted_of_trace (f := fun t => (main argv redraws loopReturns t).1)
    (main_run argv redraws loopReturns s).1
  refine ⟨by rw [hd]; rfl, by rw [hd]; rfl, by rw [emitted_of_trace (init_trace s)]; rfl, ?_, ?_⟩
  · rw [hm, List.countP_append, List.countP_append, List.countP_append,
      countP_flatten_replicate _ _ _ (by rw [hd]; rfl)]
    rfl
  · rw [hm, ← List.append_assoc, ← List.append_assoc]
    unfold clearsBeforeDrawing
    rw [List.takeWhile_append_of_pos (by simp [initCalls, isDraw]), List.any_append]
    simp [initCalls, isClear]

/-- C2, counterexample: run from the state of a fresh process, `display()`
issues no clear of the colour buffer at all, hence none before its first
line-drawing call. -/
theorem display_issues_no_clear :
    (emitted display GLState.initial).any isClear = false ∧
    clearsBeforeDrawing (emitted display GLState.initial) = false := by
  rw [emitted_of_trace (display_trace GLState.initial)]
  exact ⟨rfl, rfl⟩

end P2
